import Mathlib

/-!
Shallow embedding of `custom_components/smartthinq_sensors/wideq/devices/robotking.py`
(the RobotKing status-normalization and command-dispatch adapter).

The snapshot class `RobotKingStatus` is modelled as a structure holding the raw
payload (an association list), the two resolution collaborators (`lookup_enum`
over the `State`/`state` aliases and `lookup_reference` over the
`Error`/`error` aliases, kept abstract as function-valued fields), the two memo
fields `_run_state` and `_error`, the feature side-channel, and two counters
instrumenting how many underlying lookups were performed.  Every Python method
that mutates `self` becomes a function `RobotKingStatus → RobotKingStatus × α`
returning the new snapshot together with the method's value.

Methods inherited from the base classes `Device` / `DeviceStatus` are not part
of the repository sources available here; they are modelled from the spec and
carry a doc comment saying so.
-/

namespace RobotKing

/-- Python truthiness of an optional string: `None` and the empty string are
falsy, every other string is truthy. -/
def pyTruthy : Option String → Bool
  | none => false
  | some s => !s.isEmpty

/-- `listLeq n h` holds when the list `n` is a leading segment of `h`. -/
def listLeq : List Char → List Char → Bool
  | [], _ => true
  | _ :: _, [] => false
  | a :: as, b :: bs => a == b && listLeq as bs

/-- `listHasSegment n h` holds when `n` occurs contiguously inside `h`. -/
def listHasSegment (needle : List Char) : List Char → Bool
  | [] => listLeq needle []
  | c :: rest => listLeq needle (c :: rest) || listHasSegment needle rest

/-- Python's `needle in haystack` on strings: substring containment. -/
def strContains (haystack needle : String) : Bool :=
  listHasSegment needle.toList haystack.toList

/-- Lookup in an association list (the raw payload store). -/
def assocGet : List (String × String) → String → Option String
  | [], _ => none
  | (k', v') :: rest, k => if k' == k then some v' else assocGet rest k

/-- Write a key in an association list, replacing the first binding of the key
or appending a fresh binding when the key is absent. -/
def assocSet : List (String × String) → String → String → List (String × String)
  | [], k, v => [(k, v)]
  | (k', v') :: rest, k, v =>
      if k' == k then (k, v) :: rest else (k', v') :: assocSet rest k v

/-- First alias out of `keys` that is present in the payload `p`. -/
def firstKeyIn (p : List (String × String)) : List String → Option String
  | [] => none
  | k :: rest => if (assocGet p k).isSome then some k else firstKeyIn p rest

/-- Value of the first present alias out of `keys` in the payload `p`. -/
def lookupAlias (p : List (String × String)) (keys : List String) : Option String :=
  match firstKeyIn p keys with
  | none => none
  | some k => assocGet p k

/-- `STATE_ROBOT_KING_POWER_OFF` from robotking.py. -/
def STATE_ROBOT_KING_POWER_OFF : String := "STATE_POWER_OFF"

/-- `STATE_ROBOT_KING_END` from robotking.py: the TERMINAL sentinels. -/
def STATE_ROBOT_KING_END : List String := ["STATE_END", "STATE_COMPLETE"]

/-- `STATE_ROBOT_KING_ERROR_OFF` from robotking.py. -/
def STATE_ROBOT_KING_ERROR_OFF : String := "OFF"

/-- `STATE_ROBOT_KING_ERROR_NO_ERROR` from robotking.py. -/
def STATE_ROBOT_KING_ERROR_NO_ERROR : List String :=
  ["ERROR_NOERROR", "ERROR_NOERROR_TITLE", "No Error", "No_Error"]

/-- `POWER_STATUS_KEY` from robotking.py: the run-state field key aliases. -/
def POWER_STATUS_KEY : List String := ["State", "state"]

/-- `CMD_WAKE_UP` from robotking.py: the ordered wake-up command candidates
`[["Config", "Wakeup"], ["Set", "Wakeup"], ["WakeUp", None]]`. -/
def CMD_WAKE_UP : List (String × Option String) :=
  [("Config", some "Wakeup"), ("Set", some "Wakeup"), ("WakeUp", none)]

/-- Modelled from the spec: `StateOptions.NONE`, the canonical NONE sentinel
("nothing to report"), defined in `wideq/const.py` which is not among the
available sources; the spec only requires it to be distinct from vendor
strings. -/
def StateOptionsNone : String := "-"

/-- The state of a `RobotKingStatus` snapshot. `payload` is the raw data dict;
`resolveState` models the inherited `lookup_enum(["State", "state"])`
collaborator and `resolveError` the inherited
`lookup_reference(["Error", "error"], ref_key="title")` collaborator, both as
functions of the payload; `runStateMemo` is `_run_state`, `errorMemo` is
`_error`; `features` is the feature side-channel written by
`_update_feature`; `stateLookups`/`errorLookups` count underlying lookups. -/
structure RobotKingStatus where
  payload : List (String × String)
  resolveState : List (String × String) → Option String
  resolveError : List (String × String) → Option String
  runStateMemo : Option String
  errorMemo : Option String
  features : List (String × String)
  stateLookups : Nat
  errorLookups : Nat

/-- `RobotKingStatus.__init__`: wraps a payload (possibly `None`) with both
memo fields cleared. -/
def RobotKingStatus.init (resolveState resolveError : List (String × String) → Option String)
    (data : Option (List (String × String))) : RobotKingStatus :=
  { payload := data.getD []
    resolveState := resolveState
    resolveError := resolveError
    runStateMemo := none
    errorMemo := none
    features := []
    stateLookups := 0
    errorLookups := 0 }

/-- The value `_get_run_state` resolves when the memo is empty: the
`lookup_enum` result if truthy, else the POWER_OFF sentinel. -/
def RobotKingStatus.resolvedRun (s : RobotKingStatus) : String :=
  if pyTruthy (s.resolveState s.payload) then (s.resolveState s.payload).getD ""
  else STATE_ROBOT_KING_POWER_OFF

/-- The value `_get_error` resolves when the memo is empty: the
`lookup_reference` result if truthy, else the OFF sentinel. -/
def RobotKingStatus.resolvedErr (s : RobotKingStatus) : String :=
  if pyTruthy (s.resolveError s.payload) then (s.resolveError s.payload).getD ""
  else STATE_ROBOT_KING_ERROR_OFF

/-- `RobotKingStatus._get_run_state`: memoized run-state resolution.  One
underlying lookup is counted when the memo is falsy. -/
def RobotKingStatus.getRunState (s : RobotKingStatus) : RobotKingStatus × String :=
  if pyTruthy s.runStateMemo then (s, s.runStateMemo.getD "")
  else
    ({ s with runStateMemo := some s.resolvedRun, stateLookups := s.stateLookups + 1 },
      s.resolvedRun)

/-- `RobotKingStatus._get_error`: memoized error resolution.  One underlying
lookup is counted when the memo is falsy. -/
def RobotKingStatus.getError (s : RobotKingStatus) : RobotKingStatus × String :=
  if pyTruthy s.errorMemo then (s, s.errorMemo.getD "")
  else
    ({ s with errorMemo := some s.resolvedErr, errorLookups := s.errorLookups + 1 },
      s.resolvedErr)

/-- Modelled from the spec: `DeviceStatus.update_status`, the shared base
behavior (not among the available sources) that "performs the actual key/value
write and returns whether the value changed": the write patches the first
present alias (or inserts under the first alias when none is present) and the
flag reports whether the stored value changed. -/
def RobotKingStatus.baseUpdateStatus (s : RobotKingStatus) (keys : List String)
    (value : String) : RobotKingStatus × Bool :=
  let k := (firstKeyIn s.payload keys).getD (keys.headD "")
  if assocGet s.payload k == some value then (s, false)
  else ({ s with payload := assocSet s.payload k value }, true)

/-- `RobotKingStatus.update_status`: delegates the write to the base behavior;
on a reported change clears the run-state memo only and returns `true`,
otherwise returns `false`. -/
def RobotKingStatus.updateStatus (s : RobotKingStatus) (keys : List String)
    (value : String) : RobotKingStatus × Bool :=
  let r := s.baseUpdateStatus keys value
  if !r.2 then (r.1, false)
  else ({ r.1 with runStateMemo := none }, true)

/-- `RobotKingStatus.is_on`: true unless the resolved run state contains the
POWER_OFF sentinel as a substring. -/
def RobotKingStatus.isOn (s : RobotKingStatus) : RobotKingStatus × Bool :=
  let r := s.getRunState
  (r.1, !strContains r.2 STATE_ROBOT_KING_POWER_OFF)

/-- `RobotKingStatus.is_run_completed`: true if the resolved run state contains
any TERMINAL sentinel as a substring, or contains the POWER_OFF sentinel. -/
def RobotKingStatus.isRunCompleted (s : RobotKingStatus) : RobotKingStatus × Bool :=
  let r := s.getRunState
  (r.1, STATE_ROBOT_KING_END.any (fun st => strContains r.2 st)
    || strContains r.2 STATE_ROBOT_KING_POWER_OFF)

/-- `RobotKingStatus.is_error`: false when the device is off; otherwise false
exactly when the resolved error is a NO-ERROR sentinel or the OFF sentinel. -/
def RobotKingStatus.isError (s : RobotKingStatus) : RobotKingStatus × Bool :=
  let r := s.isOn
  if !r.2 then (r.1, false)
  else
    let e := r.1.getError
    (e.1, !(STATE_ROBOT_KING_ERROR_NO_ERROR.contains e.2
      || e.2 == STATE_ROBOT_KING_ERROR_OFF))

/-- Modelled from the spec: `DeviceStatus._update_feature` (not among the
available sources) "records the value under a stable feature key for external
consumption" and the property returns that value. -/
def RobotKingStatus.updateFeature (s : RobotKingStatus) (key value : String) :
    RobotKingStatus × String :=
  ({ s with features := assocSet s.features key value }, value)

/-- `RobotKingStatus.run_state` (public feature): the resolved run state,
replaced by the NONE sentinel when it contains the POWER_OFF sentinel, passed
through the feature side-channel. -/
def RobotKingStatus.runState (s : RobotKingStatus) : RobotKingStatus × String :=
  let r := s.getRunState
  let v := if strContains r.2 STATE_ROBOT_KING_POWER_OFF then StateOptionsNone else r.2
  r.1.updateFeature "RUN_STATE" v

/-- `RobotKingStatus.error_msg` (public feature): the NONE sentinel when
`is_error` is false, otherwise the resolved error, passed through the feature
side-channel. -/
def RobotKingStatus.errorMsg (s : RobotKingStatus) : RobotKingStatus × String :=
  let r := s.isError
  if !r.2 then r.1.updateFeature "ERROR_MSG" StateOptionsNone
  else
    let e := r.1.getError
    e.1.updateFeature "ERROR_MSG" e.2

/-- The error raised by `wake_up`: `InvalidDeviceStatus` when the appliance is
not in standby; `noSupportedCommand` when no wake-up command candidate is
supported by the capability metadata; `dispatchFailed` when the command
dispatch collaborator (`self.set`) raises. -/
inductive WakeUpError where
  | invalidDeviceStatus
  | noSupportedCommand
  | dispatchFailed
deriving DecidableEq, Repr

/-- The state of a `RobotKingDevice` controller: the `_stand_by` flag, the
stored `_status` snapshot, the resolution collaborators handed to freshly
built snapshots, the capability metadata (which command candidates are
supported) together with the run-state key resolver
(`Device._get_runstate_key`), and an instrumentation log of every command
dispatched through `self.set`. -/
structure RobotKingDevice where
  standBy : Bool
  status : RobotKingStatus
  resolveState : List (String × String) → Option String
  resolveError : List (String × String) → Option String
  supportedCmd : String × Option String → Bool
  getRunstateKey : String → String
  dispatchLog : List (String × Option String)

/-- Modelled from the spec: `Device._get_cmd_keys` (not among the available
sources) resolves an ordered candidate list against the device's capability
metadata, "selecting the first supported of several synonymous command-key
pairs". -/
def getCmdKeys (supported : String × Option String → Bool) :
    List (String × Option String) → Option (String × Option String)
  | [] => none
  | c :: rest => if supported c then some c else getCmdKeys supported rest

/-- `RobotKingDevice.reset_status`: discard the stored snapshot and replace it
with a fresh payload-less one. -/
def RobotKingDevice.resetStatus (d : RobotKingDevice) : RobotKingDevice × RobotKingStatus :=
  let st := RobotKingStatus.init d.resolveState d.resolveError none
  ({ d with status := st }, st)

/-- Python falsiness of the `_device_poll` result: `None` or an empty dict. -/
def pollFalsy : Option (List (String × String)) → Bool
  | none => true
  | some p => p.isEmpty

/-- `RobotKingDevice.poll`: the collaborator's payload `res` is passed as an
argument (the network round-trip is external).  A falsy result yields `none`
and leaves the stored snapshot untouched; otherwise a fresh snapshot is built
from the payload, stored and returned. -/
def RobotKingDevice.poll (d : RobotKingDevice) (res : Option (List (String × String))) :
    RobotKingDevice × Option RobotKingStatus :=
  if pollFalsy res then (d, none)
  else
    let st := RobotKingStatus.init d.resolveState d.resolveError res
    ({ d with status := st }, some st)

/-- `RobotKingDevice.wake_up`: raises `InvalidDeviceStatus` unless `_stand_by`
is set; otherwise resolves the wake-up command keys, dispatches the command
(`dispatchFails` says whether the external dispatch collaborator raises; on a
raise the error propagates before any local mutation), then clears
`_stand_by` and eagerly patches the stored snapshot's power-status field to
the "initial" run-state key (`Device._update_status` is modelled from the
spec: it forwards the patch to the stored snapshot's `update_status`). -/
def RobotKingDevice.wakeUp (dispatchFails : Bool) (d : RobotKingDevice) :
    RobotKingDevice × Option WakeUpError :=
  if !d.standBy then (d, some .invalidDeviceStatus)
  else
    match getCmdKeys d.supportedCmd CMD_WAKE_UP with
    | none => (d, some .noSupportedCommand)
    | some keys =>
      if dispatchFails then (d, some .dispatchFailed)
      else
        let d1 := { d with dispatchLog := d.dispatchLog ++ [keys], standBy := false }
        let r := d1.status.updateStatus POWER_STATUS_KEY (d1.getRunstateKey "STATE_INITIAL")
        ({ d1 with status := r.1 }, none)

/-- Sample resolution collaborator for concrete instantiations: `lookup_enum`
returns the payload's run-state field directly. -/
def sampleResolveState : List (String × String) → Option String :=
  fun p => lookupAlias p POWER_STATUS_KEY

/-- Sample resolution collaborator for concrete instantiations:
`lookup_reference` returns the payload's error field directly. -/
def sampleResolveError : List (String × String) → Option String :=
  fun p => lookupAlias p ["Error", "error"]

/-- A concrete running snapshot: the device reports an opaque working state and
an error reference. -/
def sampleStatus : RobotKingStatus :=
  RobotKingStatus.init sampleResolveState sampleResolveError
    (some [("State", "STATE_WORKING"), ("Error", "ERROR_X")])

/-- A concrete snapshot matching the spec's worked example: run state
`STATE_END`, error `ERROR_NOERROR`. -/
def sampleStatusEnd : RobotKingStatus :=
  RobotKingStatus.init sampleResolveState sampleResolveError
    (some [("State", "STATE_END"), ("Error", "ERROR_NOERROR")])

/-- A concrete controller in standby whose capability metadata supports the
`("Set", "Wakeup")` command candidate. -/
def sampleDevice : RobotKingDevice :=
  { standBy := true
    status := sampleStatus
    resolveState := sampleResolveState
    resolveError := sampleResolveError
    supportedCmd := fun c => c == ("Set", some "Wakeup")
    getRunstateKey := fun _ => "STATE_INITIAL"
    dispatchLog := [] }

/-- The sample controller, not in standby. -/
def sampleDeviceOff : RobotKingDevice := { sampleDevice with standBy := false }

theorem pyTruthy_eq_some (m : Option String) (h : pyTruthy m = true) :
    m = some (m.getD "") := by
  cases m with
  | none => simp [pyTruthy] at h
  | some v => rfl

theorem resolvedRun_truthy (s : RobotKingStatus) : pyTruthy (some s.resolvedRun) = true := by
  unfold RobotKingStatus.resolvedRun
  cases h : s.resolveState s.payload with
  | none => simp [pyTruthy, STATE_ROBOT_KING_POWER_OFF]; decide
  | some v =>
    by_cases hv : v.isEmpty <;>
      simp [pyTruthy, hv, STATE_ROBOT_KING_POWER_OFF] <;> decide

theorem resolvedErr_truthy (s : RobotKingStatus) : pyTruthy (some s.resolvedErr) = true := by
  unfold RobotKingStatus.resolvedErr
  cases h : s.resolveError s.payload with
  | none => simp [pyTruthy, STATE_ROBOT_KING_ERROR_OFF]; decide
  | some v =>
    by_cases hv : v.isEmpty <;>
      simp [pyTruthy, hv, STATE_ROBOT_KING_ERROR_OFF] <;> decide

theorem getRunState_of_truthy (s : RobotKingStatus) (h : pyTruthy s.runStateMemo = true) :
    s.getRunState = (s, s.runStateMemo.getD "") := by
  unfold RobotKingStatus.getRunState
  simp [h]

theorem getRunState_of_falsy (s : RobotKingStatus) (h : pyTruthy s.runStateMemo = false) :
    s.getRunState =
      ({ s with runStateMemo := some s.resolvedRun, stateLookups := s.stateLookups + 1 },
        s.resolvedRun) := by
  unfold RobotKingStatus.getRunState
  simp [h]

theorem getRunState_memo (s : RobotKingStatus) :
    ((s.getRunState).1).runStateMemo = some ((s.getRunState).2) := by
  cases hm : s.runStateMemo with
  | none =>
    rw [getRunState_of_falsy s (by simp [hm, pyTruthy])]
  | some v =>
    by_cases hv : v.isEmpty
    · rw [getRunState_of_falsy s (by simp [hm, pyTruthy, hv])]
    · rw [getRunState_of_truthy s (by simp [hm, pyTruthy, hv])]
      simp [hm]

theorem getRunState_memo_truthy (s : RobotKingStatus) :
    pyTruthy (((s.getRunState).1).runStateMemo) = true := by
  cases hm : s.runStateMemo with
  | none =>
    rw [getRunState_of_falsy s (by simp [hm, pyTruthy])]
    exact resolvedRun_truthy s
  | some v =>
    by_cases hv : v.isEmpty
    · rw [getRunState_of_falsy s (by simp [hm, pyTruthy, hv])]
      exact resolvedRun_truthy s
    · rw [getRunState_of_truthy s (by simp [hm, pyTruthy, hv])]
      simp [hm, pyTruthy, hv]

theorem getRunState_frame (s : RobotKingStatus) :
    ((s.getRunState).1).errorMemo = s.errorMemo ∧
    ((s.getRunState).1).errorLookups = s.errorLookups ∧
    ((s.getRunState).1).payload = s.payload ∧
    ((s.getRunState).1).resolveState = s.resolveState ∧
    ((s.getRunState).1).resolveError = s.resolveError ∧
    ((s.getRunState).1).features = s.features ∧
    ((s.getRunState).1).stateLookups ≤ s.stateLookups + 1 := by
  unfold RobotKingStatus.getRunState
  by_cases h : pyTruthy s.runStateMemo = true
  · simp [h]
  · simp [Bool.not_eq_true] at h
    simp [h]

theorem getRunState_stable (s : RobotKingStatus) :
    ((s.getRunState).1).getRunState = ((s.getRunState).1, (s.getRunState).2) := by
  rw [getRunState_of_truthy _ (getRunState_memo_truthy s), getRunState_memo s]
  rfl

theorem getError_of_truthy (s : RobotKingStatus) (h : pyTruthy s.errorMemo = true) :
    s.getError = (s, s.errorMemo.getD "") := by
  unfold RobotKingStatus.getError
  simp [h]

theorem getError_of_falsy (s : RobotKingStatus) (h : pyTruthy s.errorMemo = false) :
    s.getError =
      ({ s with errorMemo := some s.resolvedErr, errorLookups := s.errorLookups + 1 },
        s.resolvedErr) := by
  unfold RobotKingStatus.getError
  simp [h]

theorem getError_memo (s : RobotKingStatus) :
    ((s.getError).1).errorMemo = some ((s.getError).2) := by
  cases hm : s.errorMemo with
  | none =>
    rw [getError_of_falsy s (by simp [hm, pyTruthy])]
  | some v =>
    by_cases hv : v.isEmpty
    · rw [getError_of_falsy s (by simp [hm, pyTruthy, hv])]
    · rw [getError_of_truthy s (by simp [hm, pyTruthy, hv])]
      simp [hm]

theorem getError_memo_truthy (s : RobotKingStatus) :
    pyTruthy (((s.getError).1).errorMemo) = true := by
  cases hm : s.errorMemo with
  | none =>
    rw [getError_of_falsy s (by simp [hm, pyTruthy])]
    exact resolvedErr_truthy s
  | some v =>
    by_cases hv : v.isEmpty
    · rw [getError_of_falsy s (by simp [hm, pyTruthy, hv])]
      exact resolvedErr_truthy s
    · rw [getError_of_truthy s (by simp [hm, pyTruthy, hv])]
      simp [hm, pyTruthy, hv]

theorem getError_frame (s : RobotKingStatus) :
    ((s.getError).1).runStateMemo = s.runStateMemo ∧
    ((s.getError).1).stateLookups = s.stateLookups ∧
    ((s.getError).1).payload = s.payload ∧
    ((s.getError).1).resolveState = s.resolveState ∧
    ((s.getError).1).resolveError = s.resolveError ∧
    ((s.getError).1).features = s.features ∧
    ((s.getError).1).errorLookups ≤ s.errorLookups + 1 := by
  unfold RobotKingStatus.getError
  by_cases h : pyTruthy s.errorMemo = true
  · simp [h]
  · simp [Bool.not_eq_true] at h
    simp [h]

theorem getError_stable (s : RobotKingStatus) :
    ((s.getError).1).getError = ((s.getError).1, (s.getError).2) := by
  rw [getError_of_truthy _ (getError_memo_truthy s), getError_memo s]
  rfl

/-- The value `_get_error` returns only depends on the error memo, the payload
and the error resolver. -/
theorem getError_val_congr (s t : RobotKingStatus) (h1 : t.errorMemo = s.errorMemo)
    (h2 : t.payload = s.payload) (h3 : t.resolveError = s.resolveError) :
    (t.getError).2 = (s.getError).2 := by
  unfold RobotKingStatus.getError RobotKingStatus.resolvedErr
  rw [h1, h2, h3]
  by_cases h : pyTruthy s.errorMemo = true <;> simp [h]

/-- The value `_get_run_state` returns only depends on the run-state memo, the
payload and the state resolver. -/
theorem getRunState_val_congr (s t : RobotKingStatus) (h1 : t.runStateMemo = s.runStateMemo)
    (h2 : t.payload = s.payload) (h3 : t.resolveState = s.resolveState) :
    (t.getRunState).2 = (s.getRunState).2 := by
  unfold RobotKingStatus.getRunState RobotKingStatus.resolvedRun
  rw [h1, h2, h3]
  by_cases h : pyTruthy s.runStateMemo = true <;> simp [h]

theorem isOn_fst (s : RobotKingStatus) : (s.isOn).1 = (s.getRunState).1 := rfl

theorem isOn_snd (s : RobotKingStatus) :
    (s.isOn).2 = !strContains ((s.getRunState).2) STATE_ROBOT_KING_POWER_OFF := rfl

theorem isRunCompleted_snd (s : RobotKingStatus) :
    (s.isRunCompleted).2 =
      (STATE_ROBOT_KING_END.any (fun st => strContains ((s.getRunState).2) st)
        || strContains ((s.getRunState).2) STATE_ROBOT_KING_POWER_OFF) := rfl

/-- C1: for every snapshot, `is_error` returns `false` whenever `is_on` is
`false` (power precedes error evaluation); and when `is_on` is `true`,
`is_error` returns `false` exactly when the resolved error string is a member
of the NO-ERROR sentinel set or equals the OFF sentinel, and returns `true`
for every other error string.  Stated as: `is_error` is `true` iff `is_on` is
`true` and the resolved error is neither a NO-ERROR sentinel nor the OFF
sentinel. -/
theorem is_error_characterization (s : RobotKingStatus) :
    (s.isError).2 = true ↔
      ((s.isOn).2 = true ∧
        ¬((s.getError).2 ∈ STATE_ROBOT_KING_ERROR_NO_ERROR ∨
          (s.getError).2 = STATE_ROBOT_KING_ERROR_OFF)) := by
  have hcong : (((s.getRunState).1).getError).2 = (s.getError).2 := by
    apply getError_val_congr
    · exact (getRunState_frame s).1
    · exact (getRunState_frame s).2.2.1
    · exact (getRunState_frame s).2.2.2.2.1
  by_cases h : (s.isOn).2 = true
  · unfold RobotKingStatus.isError
    rw [show s.isOn = ((s.isOn).1, (s.isOn).2) from rfl, h, isOn_fst]
    simp only [Bool.not_true, Bool.false_eq_true, if_false, h, true_and, hcong]
    by_cases hmem : (s.getError).2 ∈ STATE_ROBOT_KING_ERROR_NO_ERROR
    · simp [hmem]
    · by_cases heq : (s.getError).2 = STATE_ROBOT_KING_ERROR_OFF
      · simp [hmem, heq]
      · simp [hmem, heq]
  · unfold RobotKingStatus.isError
    rw [show s.isOn = ((s.isOn).1, (s.isOn).2) from rfl]
    simp only [Bool.not_eq_true] at h
    simp [h]

/-- C2: for every payload in which the run-state field lookup is absent or
falsy, the run state of a freshly constructed snapshot defaults to the
POWER_OFF sentinel, so the snapshot's `is_on` is `false` and
`is_run_completed` is `true`. -/
theorem absent_run_state_defaults
    (rs re : List (String × String) → Option String)
    (data : Option (List (String × String)))
    (h : pyTruthy (rs (data.getD [])) = false) :
    (((RobotKingStatus.init rs re data).getRunState).2 = STATE_ROBOT_KING_POWER_OFF) ∧
    (((RobotKingStatus.init rs re data).isOn).2 = false) ∧
    (((RobotKingStatus.init rs re data).isRunCompleted).2 = true) := by
  have hval : ((RobotKingStatus.init rs re data).getRunState).2 = STATE_ROBOT_KING_POWER_OFF := by
    rw [getRunState_of_falsy _ (by simp [RobotKingStatus.init, pyTruthy])]
    unfold RobotKingStatus.resolvedRun
    simp [RobotKingStatus.init, h]
  refine ⟨hval, ?_, ?_⟩
  · rw [isOn_snd, hval]
    decide
  · rw [isRunCompleted_snd, hval]
    decide

/-- C2 witness: the empty payload (`None` data) resolves to the POWER_OFF
sentinel, with `is_on` false and `is_run_completed` true. -/
theorem absent_run_state_defaults_witness :
    (((RobotKingStatus.init sampleResolveState sampleResolveError none).getRunState).2
      = STATE_ROBOT_KING_POWER_OFF) ∧
    (((RobotKingStatus.init sampleResolveState sampleResolveError none).isOn).2 = false) ∧
    (((RobotKingStatus.init sampleResolveState sampleResolveError none).isRunCompleted).2
      = true) :=
  absent_run_state_defaults sampleResolveState sampleResolveError none (by decide)

/-- C3: for every snapshot whose resolved run-state string contains any
TERMINAL sentinel as a substring, `is_run_completed` is `true`. -/
theorem terminal_implies_run_completed (s : RobotKingStatus)
    (h : ∃ t ∈ STATE_ROBOT_KING_END, strContains ((s.getRunState).2) t = true) :
    (s.isRunCompleted).2 = true := by
  rw [isRunCompleted_snd]
  rcases h with ⟨t, ht, hc⟩
  have hany : STATE_ROBOT_KING_END.any (fun st => strContains ((s.getRunState).2) st) = true :=
    List.any_eq_true.mpr ⟨t, ht, hc⟩
  simp [hany]

/-- C3 witness: the spec's worked example (run state `STATE_END`) has
`is_run_completed` true. -/
theorem terminal_implies_run_completed_witness :
    (sampleStatusEnd.isRunCompleted).2 = true :=
  terminal_implies_run_completed sampleStatusEnd ⟨"STATE_END", by decide, by decide⟩

/-- C4: for every controller with `standby == false`, calling `wake_up` raises
`InvalidDeviceStatus` and performs no command dispatch, leaving the controller
state (standby flag, stored snapshot, dispatch log) unchanged. -/
theorem wake_up_not_standby (df : Bool) (d : RobotKingDevice) (h : d.standBy = false) :
    d.wakeUp df = (d, some WakeUpError.invalidDeviceStatus) := by
  unfold RobotKingDevice.wakeUp
  simp [h]

/-- C4 witness: the sample controller with standby cleared. -/
theorem wake_up_not_standby_witness :
    sampleDeviceOff.wakeUp false = (sampleDeviceOff, some WakeUpError.invalidDeviceStatus) :=
  wake_up_not_standby false sampleDeviceOff rfl

/-- C10: if the command-dispatch call inside `wake_up` (invoked with
`standby == true` and a supported command candidate) raises, the controller is
unchanged — standby remains `true` and the stored snapshot is not updated —
because both mutations are sequenced strictly after a successful dispatch. -/
theorem wake_up_dispatch_failure_frame (d : RobotKingDevice)
    (h1 : d.standBy = true)
    (h2 : (getCmdKeys d.supportedCmd CMD_WAKE_UP).isSome = true) :
    d.wakeUp true = (d, some WakeUpError.dispatchFailed) := by
  unfold RobotKingDevice.wakeUp
  rcases hck : getCmdKeys d.supportedCmd CMD_WAKE_UP with _ | ck
  · rw [hck] at h2
    simp at h2
  · simp [h1, hck]

/-- C10 witness: the sample standby controller with a failing dispatch. -/
theorem wake_up_dispatch_failure_frame_witness :
    sampleDevice.wakeUp true = (sampleDevice, some WakeUpError.dispatchFailed) :=
  wake_up_dispatch_failure_frame sampleDevice rfl (by decide)

/-- C8: a poll whose collaborator returns nothing (absent or empty payload)
yields `none` and leaves the stored snapshot — indeed the whole controller —
exactly as before the call; a fresh snapshot is constructed and stored only
for a non-empty payload, and is then also returned. -/
theorem poll_empty_frame (d : RobotKingDevice) (res : Option (List (String × String))) :
    (pollFalsy res = true → d.poll res = (d, none)) ∧
    (pollFalsy res = false →
      d.poll res =
        ({ d with status := RobotKingStatus.init d.resolveState d.resolveError res },
          some (RobotKingStatus.init d.resolveState d.resolveError res))) := by
  constructor
  · intro h
    unfold RobotKingDevice.poll
    simp [h]
  · intro h
    unfold RobotKingDevice.poll
    simp [h]

/-- C8 witness: an absent poll result leaves the sample controller untouched;
a non-empty payload replaces the stored snapshot with the freshly built one. -/
theorem poll_empty_frame_witness :
    sampleDevice.poll none = (sampleDevice, none) ∧
    sampleDevice.poll (some [("State", "STATE_END")]) =
      ({ sampleDevice with
          status := RobotKingStatus.init sampleDevice.resolveState sampleDevice.resolveError
            (some [("State", "STATE_END")]) },
        some (RobotKingStatus.init sampleDevice.resolveState sampleDevice.resolveError
          (some [("State", "STATE_END")]))) :=
  ⟨(poll_empty_frame sampleDevice none).1 rfl,
    (poll_empty_frame sampleDevice (some [("State", "STATE_END")])).2 rfl⟩

/-- C9: for every snapshot whose resolved run-state string is not itself the
canonical NONE sentinel, the public `run_state` feature reports NONE if and
only if `is_on` is `false` — both are decided by the same substring test. -/
theorem run_state_none_iff_off (s : RobotKingStatus)
    (h : (s.getRunState).2 ≠ StateOptionsNone) :
    ((s.runState).2 = StateOptionsNone ↔ (s.isOn).2 = false) := by
  unfold RobotKingStatus.runState RobotKingStatus.updateFeature
  rw [isOn_snd]
  rw [show s.getRunState = ((s.getRunState).1, (s.getRunState).2) from rfl]
  by_cases hc : strContains ((s.getRunState).2) STATE_ROBOT_KING_POWER_OFF = true
  · simp [hc]
  · simp only [Bool.not_eq_true] at hc
    simp [hc, h]

/-- C9 witness: the sample running snapshot reports neither NONE nor off. -/
theorem run_state_none_iff_off_witness :
    (sampleStatus.runState).2 = StateOptionsNone ↔ (sampleStatus.isOn).2 = false :=
  run_state_none_iff_off sampleStatus (by decide)

/-- C6 counterexample: a snapshot whose error was already resolved to
`"ERROR_X"` (via a first `error_msg` read); an `update_status` that flips the
run-state field to the POWER_OFF sentinel reports a change and leaves the
error memo untouched, yet the public `error_msg` value changes from
`"ERROR_X"` to the NONE sentinel, because `error_msg` also depends on the
power state.  This refutes the claim that `error_msg` is unchanged. -/
theorem update_status_error_msg_counterexample :
    ((sampleStatus.errorMsg).2 = "ERROR_X") ∧
    ((((sampleStatus.errorMsg).1).updateStatus POWER_STATUS_KEY "STATE_POWER_OFF").2 = true) ∧
    (((((sampleStatus.errorMsg).1).updateStatus POWER_STATUS_KEY "STATE_POWER_OFF").1).errorMemo
      = ((sampleStatus.errorMsg).1).errorMemo) ∧
    ((((((sampleStatus.errorMsg).1).updateStatus POWER_STATUS_KEY
        "STATE_POWER_OFF").1).errorMsg).2 = StateOptionsNone) ∧
    ("ERROR_X" : String) ≠ StateOptionsNone := by
  refine ⟨by decide, by decide, by decide, by decide, by decide⟩

/-- C6 (amended): an `update_status` call whose underlying write reports a
change clears only the run-state memo and returns `true` — the next
`run_state` read re-resolves against the updated payload, the error memo and
everything else except the payload and run-state memo are unchanged (the
public `error_msg` may nonetheless change, since it also depends on the power
state); a call whose write reports no change returns `false` and clears
neither memo, leaving the snapshot untouched. -/
theorem update_status_memo_effects (s : RobotKingStatus) (keys : List String) (v : String) :
    ((s.updateStatus keys v).2 = true →
      ((s.updateStatus keys v).1).runStateMemo = none ∧
      ((s.updateStatus keys v).1).errorMemo = s.errorMemo ∧
      ((s.updateStatus keys v).1).features = s.features ∧
      ((s.updateStatus keys v).1).payload =
        assocSet s.payload ((firstKeyIn s.payload keys).getD (keys.headD "")) v ∧
      (((s.updateStatus keys v).1).getRunState).2 = ((s.updateStatus keys v).1).resolvedRun) ∧
    ((s.updateStatus keys v).2 = false → (s.updateStatus keys v).1 = s) := by
  unfold RobotKingStatus.updateStatus RobotKingStatus.baseUpdateStatus
  by_cases h : assocGet s.payload ((firstKeyIn s.payload keys).getD (keys.headD "")) = some v
  · simp only [List.headD_eq_head?_getD] at h
    simp [h]
  · simp only [List.headD_eq_head?_getD] at h ⊢
    simp only [h, beq_iff_eq, if_false, if_true, Bool.not_false, Bool.false_eq_true,
      Bool.true_eq_false, false_implies, true_implies, and_true, true_and, if_neg h]
    refine ⟨fun _ => ⟨rfl, rfl, rfl, rfl, ?_⟩, fun hf => absurd hf (by simp)⟩
    rw [getRunState_of_falsy _ (by simp [pyTruthy])]

/-- C6 witness: on the sample snapshot, writing a new run-state value reports
a change with the memo effects above, and re-writing the present value
reports no change and leaves the snapshot untouched. -/
theorem update_status_memo_effects_witness :
    (((sampleStatus.updateStatus POWER_STATUS_KEY "STATE_POWER_OFF").1).runStateMemo = none ∧
      ((sampleStatus.updateStatus POWER_STATUS_KEY "STATE_POWER_OFF").1).errorMemo
        = sampleStatus.errorMemo ∧
      ((sampleStatus.updateStatus POWER_STATUS_KEY "STATE_POWER_OFF").1).features
        = sampleStatus.features ∧
      ((sampleStatus.updateStatus POWER_STATUS_KEY "STATE_POWER_OFF").1).payload =
        assocSet sampleStatus.payload
          ((firstKeyIn sampleStatus.payload POWER_STATUS_KEY).getD
            (POWER_STATUS_KEY.headD "")) "STATE_POWER_OFF" ∧
      (((sampleStatus.updateStatus POWER_STATUS_KEY "STATE_POWER_OFF").1).getRunState).2 =
        ((sampleStatus.updateStatus POWER_STATUS_KEY "STATE_POWER_OFF").1).resolvedRun) ∧
    ((sampleStatus.updateStatus POWER_STATUS_KEY "STATE_WORKING").1 = sampleStatus) :=
  ⟨(update_status_memo_effects sampleStatus POWER_STATUS_KEY "STATE_POWER_OFF").1 (by decide),
    (update_status_memo_effects sampleStatus POWER_STATUS_KEY "STATE_WORKING").2 (by decide)⟩

theorem assocGet_assocSet_self (p : List (String × String)) (k v : String) :
    assocGet (assocSet p k v) k = some v := by
  induction p with
  | nil => simp [assocGet, assocSet]
  | cons hd tl ih =>
    obtain ⟨k', v'⟩ := hd
    by_cases h : k' = k
    · simp [assocSet, assocGet, h]
    · simp [assocSet, assocGet, h, ih]

theorem assocGet_assocSet_ne (p : List (String × String)) (k k' v : String) (h : k' ≠ k) :
    assocGet (assocSet p k v) k' = assocGet p k' := by
  have hne : ¬k = k' := fun hh => h hh.symm
  induction p with
  | nil => simp [assocGet, assocSet, hne]
  | cons hd tl ih =>
    obtain ⟨a, b⟩ := hd
    by_cases ha : a = k
    · subst ha
      simp [assocSet, assocGet, hne]
    · simp [assocSet, assocGet, ha, ih]

theorem getRunState_val (s : RobotKingStatus) :
    (s.getRunState).2 =
      if pyTruthy s.runStateMemo then s.runStateMemo.getD "" else s.resolvedRun := by
  unfold RobotKingStatus.getRunState
  by_cases h : pyTruthy s.runStateMemo = true <;> simp [h]

theorem resolvedRun_not_off (s : RobotKingStatus)
    (h1 : pyTruthy (s.resolveState s.payload) = true)
    (h2 : strContains ((s.resolveState s.payload).getD "") STATE_ROBOT_KING_POWER_OFF = false) :
    strContains s.resolvedRun STATE_ROBOT_KING_POWER_OFF = false := by
  unfold RobotKingStatus.resolvedRun
  simp [h1, h2]

theorem updateStatus_frame (s : RobotKingStatus) (keys : List String) (v : String) :
    ((s.updateStatus keys v).1).resolveState = s.resolveState ∧
    ((s.updateStatus keys v).1).resolveError = s.resolveError ∧
    ((s.updateStatus keys v).1).errorMemo = s.errorMemo ∧
    ((s.updateStatus keys v).1).features = s.features ∧
    ((s.updateStatus keys v).1).stateLookups = s.stateLookups ∧
    ((s.updateStatus keys v).1).errorLookups = s.errorLookups := by
  unfold RobotKingStatus.updateStatus RobotKingStatus.baseUpdateStatus
  by_cases h : assocGet s.payload ((firstKeyIn s.payload keys).getD (keys.headD "")) = some v
  · simp only [List.headD_eq_head?_getD] at h
    simp [h]
  · simp only [List.headD_eq_head?_getD] at h
    simp [h]

theorem updateStatus_memo_or_id (s : RobotKingStatus) (keys : List String) (v : String) :
    ((s.updateStatus keys v).1).runStateMemo = none ∨ (s.updateStatus keys v).1 = s := by
  unfold RobotKingStatus.updateStatus RobotKingStatus.baseUpdateStatus
  by_cases h : assocGet s.payload ((firstKeyIn s.payload keys).getD (keys.headD "")) = some v
  · simp only [List.headD_eq_head?_getD] at h
    simp [h]
  · simp only [List.headD_eq_head?_getD] at h
    simp [h]

theorem updateStatus_payload_cases (s : RobotKingStatus) (keys : List String) (v : String) :
    (assocGet s.payload ((firstKeyIn s.payload keys).getD (keys.headD "")) = some v ∧
      ((s.updateStatus keys v).1).payload = s.payload) ∨
    ((s.updateStatus keys v).1).payload =
      assocSet s.payload ((firstKeyIn s.payload keys).getD (keys.headD "")) v := by
  unfold RobotKingStatus.updateStatus RobotKingStatus.baseUpdateStatus
  by_cases h : assocGet s.payload ((firstKeyIn s.payload keys).getD (keys.headD "")) = some v
  · simp only [List.headD_eq_head?_getD] at h ⊢
    simp [h]
  · simp only [List.headD_eq_head?_getD] at h ⊢
    simp [h]

theorem firstKeyIn_power (p : List (String × String)) :
    firstKeyIn p POWER_STATUS_KEY =
      if (assocGet p "State").isSome then some "State"
      else if (assocGet p "state").isSome then some "state" else none := by
  simp [firstKeyIn, POWER_STATUS_KEY]

theorem lookupAlias_power (p : List (String × String)) :
    lookupAlias p POWER_STATUS_KEY =
      if (assocGet p "State").isSome then assocGet p "State"
      else if (assocGet p "state").isSome then assocGet p "state" else none := by
  unfold lookupAlias
  rw [firstKeyIn_power]
  by_cases h1 : (assocGet p "State").isSome = true
  · simp [h1]
  · by_cases h2 : (assocGet p "state").isSome = true <;> simp [h1, h2]

/-- After `update_status` on the run-state aliases, the first present alias in
the resulting payload holds the written value. -/
theorem updateStatus_lookup (s : RobotKingStatus) (v : String) :
    lookupAlias (((s.updateStatus POWER_STATUS_KEY v)).1).payload POWER_STATUS_KEY = some v := by
  have hhead : POWER_STATUS_KEY.headD "" = "State" := rfl
  rcases updateStatus_payload_cases s POWER_STATUS_KEY v with ⟨hv, hp⟩ | hp
  · rw [hp, lookupAlias_power]
    rw [firstKeyIn_power, hhead] at hv
    by_cases h1 : (assocGet s.payload "State").isSome = true
    · rw [if_pos h1] at hv ⊢
      simpa using hv
    · by_cases h2 : (assocGet s.payload "state").isSome = true
      · rw [if_neg h1, if_pos h2] at hv
        rw [if_neg h1, if_pos h2]
        simpa using hv
      · rw [if_neg h1, if_neg h2] at hv
        simp at hv
        rw [hv] at h1
        simp at h1
  · rw [hp, lookupAlias_power, firstKeyIn_power, hhead]
    by_cases h1 : (assocGet s.payload "State").isSome = true
    · rw [if_pos h1]
      simp [assocGet_assocSet_self]
    · by_cases h2 : (assocGet s.payload "state").isSome = true
      · rw [if_neg h1, if_pos h2]
        simp only [Option.getD_some]
        have hne : assocGet (assocSet s.payload "state" v) "State" = assocGet s.payload "State" :=
          assocGet_assocSet_ne s.payload "state" "State" v (by decide)
        rw [hne, if_neg h1]
        simp [assocGet_assocSet_self]
      · rw [if_neg h1, if_neg h2]
        simp only [Option.getD_none]
        simp [assocGet_assocSet_self]

/-- If the resolver classifies any payload carrying the written run-state code
as a truthy, non-off state, then after the eager `update_status` write the
snapshot's `is_on` is `true` — whether or not the write reported a change. -/
theorem updateStatus_isOn (s : RobotKingStatus) (c : String)
    (hres : ∀ p : List (String × String), lookupAlias p POWER_STATUS_KEY = some c →
      pyTruthy (s.resolveState p) = true ∧
      strContains ((s.resolveState p).getD "") STATE_ROBOT_KING_POWER_OFF = false)
    (hmemo : pyTruthy s.runStateMemo = true → s.runStateMemo = some s.resolvedRun) :
    (((s.updateStatus POWER_STATUS_KEY c).1).isOn).2 = true := by
  have hframe := updateStatus_frame s POWER_STATUS_KEY c
  have hlook := updateStatus_lookup s c
  rcases updateStatus_memo_or_id s POWER_STATUS_KEY c with hm | hm
  · rw [isOn_snd, getRunState_val, hm]
    simp only [pyTruthy, Bool.false_eq_true, if_false]
    have h12 := hres ((s.updateStatus POWER_STATUS_KEY c).1).payload hlook
    have h1 := h12.1
    have h2 := h12.2
    rw [← hframe.1] at h1 h2
    rw [resolvedRun_not_off _ h1 h2]
    rfl
  · rw [hm] at hlook ⊢
    have h1 := (hres s.payload hlook).1
    have h2 := (hres s.payload hlook).2
    have hno : strContains s.resolvedRun STATE_ROBOT_KING_POWER_OFF = false :=
      resolvedRun_not_off s h1 h2
    rw [isOn_snd, getRunState_val]
    by_cases hmt : pyTruthy s.runStateMemo = true
    · rw [if_pos hmt, hmemo hmt]
      simp [hno]
    · simp only [Bool.not_eq_true] at hmt
      rw [hmt]
      simp [hno]

/-- C5: for every controller in standby with a supported wake-up command
candidate (and a resolver that classifies the written "initial" run-state code
as a truthy, non-off state, the snapshot memo being coherent when set), a
successful `wake_up` dispatches exactly one command — the first supported
candidate of `CMD_WAKE_UP` — sets standby to `false`, writes the initial
run-state code into the stored snapshot's power-status field, and makes
`is_on` on the stored snapshot `true` immediately, with no poll. -/
theorem wake_up_success (d : RobotKingDevice) (ck : String × Option String)
    (hsb : d.standBy = true)
    (hck : getCmdKeys d.supportedCmd CMD_WAKE_UP = some ck)
    (hres : ∀ p : List (String × String),
      lookupAlias p POWER_STATUS_KEY = some (d.getRunstateKey "STATE_INITIAL") →
      pyTruthy (d.status.resolveState p) = true ∧
      strContains ((d.status.resolveState p).getD "") STATE_ROBOT_KING_POWER_OFF = false)
    (hmemo : pyTruthy d.status.runStateMemo = true →
      d.status.runStateMemo = some d.status.resolvedRun) :
    ((d.wakeUp false).2 = none) ∧
    (((d.wakeUp false).1).standBy = false) ∧
    (((d.wakeUp false).1).dispatchLog = d.dispatchLog ++ [ck]) ∧
    (lookupAlias (((d.wakeUp false).1).status.payload) POWER_STATUS_KEY
      = some (d.getRunstateKey "STATE_INITIAL")) ∧
    (((((d.wakeUp false).1).status).isOn).2 = true) := by
  unfold RobotKingDevice.wakeUp
  rw [hsb, hck]
  simp only [Bool.not_true, Bool.false_eq_true, if_false, Bool.true_eq_false]
  refine ⟨trivial, trivial, trivial, ?_, ?_⟩
  · exact updateStatus_lookup d.status (d.getRunstateKey "STATE_INITIAL")
  · exact updateStatus_isOn d.status (d.getRunstateKey "STATE_INITIAL") hres hmemo

/-- C5 witness: the sample standby controller wakes up by dispatching the
supported `("Set", "Wakeup")` candidate and is immediately on. -/
theorem wake_up_success_witness :
    ((sampleDevice.wakeUp false).2 = none) ∧
    (((sampleDevice.wakeUp false).1).standBy = false) ∧
    (((sampleDevice.wakeUp false).1).dispatchLog
      = sampleDevice.dispatchLog ++ [("Set", some "Wakeup")]) ∧
    (lookupAlias (((sampleDevice.wakeUp false).1).status.payload) POWER_STATUS_KEY
      = some (sampleDevice.getRunstateKey "STATE_INITIAL")) ∧
    (((((sampleDevice.wakeUp false).1).status).isOn).2 = true) :=
  wake_up_success sampleDevice ("Set", some "Wakeup") (by decide) (by decide)
    (fun p hp => by
      have hr : sampleDevice.status.resolveState p = some "STATE_INITIAL" := by
        have : lookupAlias p POWER_STATUS_KEY = some "STATE_INITIAL" := hp
        simpa [sampleDevice, sampleStatus, RobotKingStatus.init, sampleResolveState] using this
      rw [hr]
      exact ⟨by decide, by decide⟩)
    (by decide)

theorem getRunState_val_nonempty (s : RobotKingStatus) :
    ((s.getRunState).2).isEmpty = false := by
  have h := getRunState_memo_truthy s
  rw [getRunState_memo s] at h
  simpa [pyTruthy] using h

theorem getError_val_nonempty (s : RobotKingStatus) :
    ((s.getError).2).isEmpty = false := by
  have h := getError_memo_truthy s
  rw [getError_memo s] at h
  simpa [pyTruthy] using h

theorem getRunState_of_memo_some (t : RobotKingStatus) (rv : String)
    (h : t.runStateMemo = some rv) (hrv : rv.isEmpty = false) :
    t.getRunState = (t, rv) := by
  rw [getRunState_of_truthy t (by simp [h, pyTruthy, hrv]), h]
  rfl

theorem getError_of_memo_some (t : RobotKingStatus) (rv : String)
    (h : t.errorMemo = some rv) (hrv : rv.isEmpty = false) :
    t.getError = (t, rv) := by
  rw [getError_of_truthy t (by simp [h, pyTruthy, hrv]), h]
  rfl

theorem updateFeature_fst_fields (s : RobotKingStatus) (k v : String) :
    ((s.updateFeature k v).1).payload = s.payload ∧
    ((s.updateFeature k v).1).resolveState = s.resolveState ∧
    ((s.updateFeature k v).1).resolveError = s.resolveError ∧
    ((s.updateFeature k v).1).runStateMemo = s.runStateMemo ∧
    ((s.updateFeature k v).1).errorMemo = s.errorMemo ∧
    ((s.updateFeature k v).1).stateLookups = s.stateLookups ∧
    ((s.updateFeature k v).1).errorLookups = s.errorLookups :=
  ⟨rfl, rfl, rfl, rfl, rfl, rfl, rfl⟩

theorem updateFeature_snd (s : RobotKingStatus) (k v : String) :
    (s.updateFeature k v).2 = v := rfl

theorem runState_eq (s : RobotKingStatus) :
    s.runState = ((s.getRunState).1).updateFeature "RUN_STATE"
      (if strContains ((s.getRunState).2) STATE_ROBOT_KING_POWER_OFF then StateOptionsNone
       else (s.getRunState).2) := rfl

theorem runState_snd (s : RobotKingStatus) :
    (s.runState).2 =
      if strContains ((s.getRunState).2) STATE_ROBOT_KING_POWER_OFF then StateOptionsNone
      else (s.getRunState).2 := rfl

theorem isError_of_off (s : RobotKingStatus) (h : (s.isOn).2 = false) :
    s.isError = ((s.getRunState).1, false) := by
  unfold RobotKingStatus.isError
  rw [show s.isOn = ((s.isOn).1, (s.isOn).2) from rfl, h, isOn_fst]
  rfl

theorem isError_of_on (s : RobotKingStatus) (h : (s.isOn).2 = true) :
    s.isError = ((((s.getRunState).1).getError).1,
      !(STATE_ROBOT_KING_ERROR_NO_ERROR.contains ((((s.getRunState).1).getError).2)
        || (((s.getRunState).1).getError).2 == STATE_ROBOT_KING_ERROR_OFF)) := by
  unfold RobotKingStatus.isError
  rw [show s.isOn = ((s.isOn).1, (s.isOn).2) from rfl, h, isOn_fst]
  rfl

theorem errorMsg_of_false (s : RobotKingStatus) (h : (s.isError).2 = false) :
    s.errorMsg = ((s.isError).1).updateFeature "ERROR_MSG" StateOptionsNone := by
  unfold RobotKingStatus.errorMsg
  rw [show s.isError = ((s.isError).1, (s.isError).2) from rfl, h]
  rfl

theorem errorMsg_of_true (s : RobotKingStatus) (h : (s.isError).2 = true) :
    s.errorMsg = (((s.isError).1).getError).1.updateFeature "ERROR_MSG"
      ((((s.isError).1).getError).2) := by
  unfold RobotKingStatus.errorMsg
  rw [show s.isError = ((s.isError).1, (s.isError).2) from rfl, h]
  rfl

/-- Two successive `run_state` reads return the same value, perform at most
one underlying state lookup in total and no error lookup. -/
theorem runState_twice (s : RobotKingStatus) :
    ((((s.runState).1).runState).2 = (s.runState).2) ∧
    ((((s.runState).1).runState).1.stateLookups ≤ s.stateLookups + 1) ∧
    ((((s.runState).1).runState).1.errorLookups = s.errorLookups) := by
  have hmemoS1 : ((s.runState).1).runStateMemo = some ((s.getRunState).2) := by
    rw [runState_eq s]
    rw [(updateFeature_fst_fields _ _ _).2.2.2.1]
    exact getRunState_memo s
  have hsecond : ((s.runState).1).getRunState = ((s.runState).1, (s.getRunState).2) :=
    getRunState_of_memo_some _ _ hmemoS1 (getRunState_val_nonempty s)
  have hfst : (((s.runState).1).getRunState).1 = (s.runState).1 :=
    (congrArg Prod.fst hsecond).trans rfl
  have hsnd : (((s.runState).1).getRunState).2 = (s.getRunState).2 :=
    (congrArg Prod.snd hsecond).trans rfl
  refine ⟨?_, ?_, ?_⟩
  · rw [runState_snd ((s.runState).1), runState_snd s, hsnd]
  · have e1 : ((((s.runState).1).runState).1).stateLookups
        = ((((s.runState).1).getRunState).1).stateLookups := by
      rw [runState_eq ((s.runState).1)]
      exact (updateFeature_fst_fields _ _ _).2.2.2.2.2.1
    rw [e1, hfst]
    have e2 : ((s.runState).1).stateLookups = ((s.getRunState).1).stateLookups := by
      rw [runState_eq s]
      exact (updateFeature_fst_fields _ _ _).2.2.2.2.2.1
    rw [e2]
    exact (getRunState_frame s).2.2.2.2.2.2
  · have e1 : ((((s.runState).1).runState).1).errorLookups
        = ((((s.runState).1).getRunState).1).errorLookups := by
      rw [runState_eq ((s.runState).1)]
      exact (updateFeature_fst_fields _ _ _).2.2.2.2.2.2
    rw [e1, hfst]
    have e2 : ((s.runState).1).errorLookups = ((s.getRunState).1).errorLookups := by
      rw [runState_eq s]
      exact (updateFeature_fst_fields _ _ _).2.2.2.2.2.2
    rw [e2]
    exact (getRunState_frame s).2.1

theorem errorMsg_errorMemo_of_true (s : RobotKingStatus) (h : (s.isError).2 = true) :
    ((s.errorMsg).1).errorMemo = some ((((s.isError).1).getError).2) := by
  rw [errorMsg_of_true s h]
  exact ((updateFeature_fst_fields _ _ _).2.2.2.2.1).trans (getError_memo _)

theorem errorMsg_errorMemo_of_false (s : RobotKingStatus) (h : (s.isError).2 = false) :
    ((s.errorMsg).1).errorMemo = ((s.isError).1).errorMemo := by
  rw [errorMsg_of_false s h]
  exact (updateFeature_fst_fields _ _ _).2.2.2.2.1

theorem isError_fst_fields (s : RobotKingStatus) :
    ((s.isError).1).runStateMemo = some ((s.getRunState).2) ∧
    ((s.isError).1).payload = s.payload ∧
    ((s.isError).1).resolveState = s.resolveState ∧
    ((s.isError).1).resolveError = s.resolveError ∧
    ((s.isError).1).stateLookups ≤ s.stateLookups + 1 ∧
    ((s.isError).1).errorLookups ≤ s.errorLookups + 1 := by
  have hg1memo := getRunState_memo s
  have hg := getRunState_frame s
  by_cases h : (s.isOn).2 = true
  · rw [isError_of_on s h]
    have he := getError_frame ((s.getRunState).1)
    refine ⟨he.1.trans hg1memo, he.2.2.1.trans hg.2.2.1, he.2.2.2.1.trans hg.2.2.2.1,
      he.2.2.2.2.1.trans hg.2.2.2.2.1, ?_, ?_⟩
    · have := he.2.1
      rw [this]
      exact hg.2.2.2.2.2.2
    · calc ((((s.getRunState).1).getError).1).errorLookups
          ≤ ((s.getRunState).1).errorLookups + 1 := he.2.2.2.2.2.2
        _ = s.errorLookups + 1 := by rw [hg.2.1]
  · simp only [Bool.not_eq_true] at h
    rw [isError_of_off s h]
    refine ⟨hg1memo, hg.2.2.1, hg.2.2.2.1, hg.2.2.2.2.1, hg.2.2.2.2.2.2, ?_⟩
    rw [hg.2.1]
    exact Nat.le_succ _

theorem errorMsg_fst_fields (s : RobotKingStatus) :
    ((s.errorMsg).1).runStateMemo = ((s.isError).1).runStateMemo ∧
    ((s.errorMsg).1).payload = ((s.isError).1).payload ∧
    ((s.errorMsg).1).resolveState = ((s.isError).1).resolveState ∧
    ((s.errorMsg).1).resolveError = ((s.isError).1).resolveError ∧
    ((s.errorMsg).1).stateLookups = ((s.isError).1).stateLookups ∧
    ((s.errorMsg).1).errorLookups = ((s.isError).1).errorLookups := by
  by_cases h : (s.isError).2 = true
  · by_cases hOn : (s.isOn).2 = true
    · have hx : ((s.isError).1).getError
          = (((s.isError).1), (((s.isError).1).getError).2) := by
        have hfst : (s.isError).1 = (((s.getRunState).1).getError).1 := by
          rw [isError_of_on s hOn]
        have hval : (((((s.getRunState).1).getError).1).getError).2
            = (((s.getRunState).1).getError).2 :=
          (congrArg Prod.snd (getError_stable ((s.getRunState).1))).trans rfl
        rw [hfst, hval]
        exact getError_stable _
      rw [errorMsg_of_true s h, hx]
      exact ⟨(updateFeature_fst_fields _ _ _).2.2.2.1, (updateFeature_fst_fields _ _ _).1,
        (updateFeature_fst_fields _ _ _).2.1, (updateFeature_fst_fields _ _ _).2.2.1,
        (updateFeature_fst_fields _ _ _).2.2.2.2.2.1,
        (updateFeature_fst_fields _ _ _).2.2.2.2.2.2⟩
    · exfalso
      simp only [Bool.not_eq_true] at hOn
      have hoff : (s.isError).2 = false := by rw [isError_of_off s hOn]
      rw [h] at hoff
      cases hoff
  · simp only [Bool.not_eq_true] at h
    rw [errorMsg_of_false s h]
    exact ⟨(updateFeature_fst_fields _ _ _).2.2.2.1, (updateFeature_fst_fields _ _ _).1,
      (updateFeature_fst_fields _ _ _).2.1, (updateFeature_fst_fields _ _ _).2.2.1,
      (updateFeature_fst_fields _ _ _).2.2.2.2.2.1,
      (updateFeature_fst_fields _ _ _).2.2.2.2.2.2⟩

/-- Two successive `error_msg` reads return the same value and perform at most
one underlying state lookup and one error lookup in total. -/
theorem errorMsg_twice (s : RobotKingStatus) :
    ((((s.errorMsg).1).errorMsg).2 = (s.errorMsg).2) ∧
    ((((s.errorMsg).1).errorMsg).1.stateLookups ≤ s.stateLookups + 1) ∧
    ((((s.errorMsg).1).errorMsg).1.errorLookups ≤ s.errorLookups + 1) := by
  have hIE := isError_fst_fields s
  have hEM := errorMsg_fst_fields s
  have hvne := getRunState_val_nonempty s
  have ht1memo : ((s.errorMsg).1).runStateMemo = some ((s.getRunState).2) := hEM.1.trans hIE.1
  have ht1get : ((s.errorMsg).1).getRunState = ((s.errorMsg).1, (s.getRunState).2) :=
    getRunState_of_memo_some _ _ ht1memo hvne
  have ht1getfst : (((s.errorMsg).1).getRunState).1 = (s.errorMsg).1 :=
    (congrArg Prod.fst ht1get).trans rfl
  have ht1getsnd : (((s.errorMsg).1).getRunState).2 = (s.getRunState).2 :=
    (congrArg Prod.snd ht1get).trans rfl
  have ht1On : (((s.errorMsg).1).isOn).2 = (s.isOn).2 := by
    rw [isOn_snd, isOn_snd, ht1getsnd]
  have ht1state : ((s.errorMsg).1).stateLookups ≤ s.stateLookups + 1 := by
    rw [hEM.2.2.2.2.1]
    exact hIE.2.2.2.2.1
  have ht1err : ((s.errorMsg).1).errorLookups ≤ s.errorLookups + 1 := by
    rw [hEM.2.2.2.2.2]
    exact hIE.2.2.2.2.2
  by_cases hOn : (s.isOn).2 = true
  · have hxfst : (s.isError).1 = (((s.getRunState).1).getError).1 := by
      rw [isError_of_on s hOn]
    have hxsnd : (s.isError).2
        = !(STATE_ROBOT_KING_ERROR_NO_ERROR.contains ((((s.getRunState).1).getError).2)
          || (((s.getRunState).1).getError).2 == STATE_ROBOT_KING_ERROR_OFF) := by
      rw [isError_of_on s hOn]
    have hevne : ((((s.getRunState).1).getError).2).isEmpty = false :=
      getError_val_nonempty _
    have hxmemo : ((s.isError).1).errorMemo = some ((((s.getRunState).1).getError).2) := by
      rw [hxfst]
      exact getError_memo _
    have hxget : ((s.isError).1).getError
        = ((s.isError).1, (((s.getRunState).1).getError).2) := by
      have hval : (((((s.getRunState).1).getError).1).getError).2
          = (((s.getRunState).1).getError).2 :=
        (congrArg Prod.snd (getError_stable ((s.getRunState).1))).trans rfl
      rw [hxfst]
      exact getError_stable _
    have hxgetsnd : (((s.isError).1).getError).2 = (((s.getRunState).1).getError).2 :=
      (congrArg Prod.snd hxget).trans rfl
    have ht1errmemo : ((s.errorMsg).1).errorMemo
        = some ((((s.getRunState).1).getError).2) := by
      by_cases hb : (s.isError).2 = true
      · rw [errorMsg_errorMemo_of_true s hb, hxgetsnd]
      · simp only [Bool.not_eq_true] at hb
        rw [errorMsg_errorMemo_of_false s hb]
        exact hxmemo
    have ht1getE : ((s.errorMsg).1).getError
        = ((s.errorMsg).1, (((s.getRunState).1).getError).2) :=
      getError_of_memo_some _ _ ht1errmemo hevne
    have ht1getEfst : (((s.errorMsg).1).getError).1 = (s.errorMsg).1 :=
      (congrArg Prod.fst ht1getE).trans rfl
    have ht1getEsnd : (((s.errorMsg).1).getError).2 = (((s.getRunState).1).getError).2 :=
      (congrArg Prod.snd ht1getE).trans rfl
    have hErr2 : ((s.errorMsg).1).isError
        = ((s.errorMsg).1,
           !(STATE_ROBOT_KING_ERROR_NO_ERROR.contains ((((s.getRunState).1).getError).2)
             || (((s.getRunState).1).getError).2 == STATE_ROBOT_KING_ERROR_OFF)) := by
      rw [isError_of_on _ (ht1On.trans hOn), ht1getfst, ht1getEfst, ht1getEsnd]
    have hErr2fst : (((s.errorMsg).1).isError).1 = (s.errorMsg).1 := by rw [hErr2]
    have hErr2snd : (((s.errorMsg).1).isError).2
        = !(STATE_ROBOT_KING_ERROR_NO_ERROR.contains ((((s.getRunState).1).getError).2)
          || (((s.getRunState).1).getError).2 == STATE_ROBOT_KING_ERROR_OFF) := by
      rw [hErr2]
    refine ⟨?_, ?_, ?_⟩
    · by_cases hb : (s.isError).2 = true
      · have hb2 : (((s.errorMsg).1).isError).2 = true := by
          rw [hErr2snd, ← hxsnd]
          exact hb
        have hv1 : (s.errorMsg).2 = (((s.getRunState).1).getError).2 := by
          rw [errorMsg_of_true s hb, updateFeature_snd, hxgetsnd]
        have hv2 : ((((s.errorMsg).1).errorMsg)).2 = (((s.getRunState).1).getError).2 := by
          rw [errorMsg_of_true _ hb2, updateFeature_snd, hErr2fst, ht1getEsnd]
        rw [hv1, hv2]
      · simp only [Bool.not_eq_true] at hb
        have hb2 : (((s.errorMsg).1).isError).2 = false := by
          rw [hErr2snd, ← hxsnd]
          exact hb
        have hv1 : (s.errorMsg).2 = StateOptionsNone := by
          rw [errorMsg_of_false s hb, updateFeature_snd]
        have hv2 : ((((s.errorMsg).1).errorMsg)).2 = StateOptionsNone := by
          rw [errorMsg_of_false _ hb2, updateFeature_snd]
        rw [hv1, hv2]
    · have e1 : ((((s.errorMsg).1).errorMsg).1).stateLookups
          = ((((s.errorMsg).1).isError).1).stateLookups := (errorMsg_fst_fields _).2.2.2.2.1
      rw [e1, hErr2fst]
      exact ht1state
    · have e1 : ((((s.errorMsg).1).errorMsg).1).errorLookups
          = ((((s.errorMsg).1).isError).1).errorLookups := (errorMsg_fst_fields _).2.2.2.2.2
      rw [e1, hErr2fst]
      exact ht1err
  · simp only [Bool.not_eq_true] at hOn
    have hb : (s.isError).2 = false := by rw [isError_of_off s hOn]
    have ht1On2 : (((s.errorMsg).1).isOn).2 = false := ht1On.trans hOn
    have hErr2 : ((s.errorMsg).1).isError = ((s.errorMsg).1, false) := by
      rw [isError_of_off _ ht1On2, ht1getfst]
    have hErr2fst : (((s.errorMsg).1).isError).1 = (s.errorMsg).1 := by rw [hErr2]
    have hb2 : (((s.errorMsg).1).isError).2 = false := by rw [hErr2]
    refine ⟨?_, ?_, ?_⟩
    · have hv1 : (s.errorMsg).2 = StateOptionsNone := by
        rw [errorMsg_of_false s hb, updateFeature_snd]
      have hv2 : ((((s.errorMsg).1).errorMsg)).2 = StateOptionsNone := by
        rw [errorMsg_of_false _ hb2, updateFeature_snd]
      rw [hv1, hv2]
    · have e1 : ((((s.errorMsg).1).errorMsg).1).stateLookups
          = ((((s.errorMsg).1).isError).1).stateLookups := (errorMsg_fst_fields _).2.2.2.2.1
      rw [e1, hErr2fst]
      exact ht1state
    · have e1 : ((((s.errorMsg).1).errorMsg).1).errorLookups
          = ((((s.errorMsg).1).isError).1).errorLookups := (errorMsg_fst_fields _).2.2.2.2.2
      rw [e1, hErr2fst]
      exact ht1err

/-- C7: on every snapshot, reading `run_state` (or `error_msg`) twice with no
intervening `update_status` returns identical values and leaves the per-field
underlying lookup counters at most one above their starting point — the
resolved values are memoized in `_run_state` / `_error`, so the second read
performs no further lookup. -/
theorem memoized_reads_idempotent (s : RobotKingStatus) :
    (((((s.runState).1).runState).2 = (s.runState).2) ∧
      ((((s.runState).1).runState).1.stateLookups ≤ s.stateLookups + 1) ∧
      ((((s.runState).1).runState).1.errorLookups = s.errorLookups)) ∧
    (((((s.errorMsg).1).errorMsg).2 = (s.errorMsg).2) ∧
      ((((s.errorMsg).1).errorMsg).1.stateLookups ≤ s.stateLookups + 1) ∧
      ((((s.errorMsg).1).errorMsg).1.errorLookups ≤ s.errorLookups + 1)) :=
  ⟨runState_twice s, errorMsg_twice s⟩

end RobotKing
